import Mathlib

/-!
Shallow embedding of src/mutiny-core/src/networking/ws_socket.rs.

The Rust file implements a connection multiplexer: one physical proxy
connection fans out into N virtual sockets, one per remote peer.  Mutable
shared state (the socket map behind a Mutex, the per-socket crossbeam
channels, the per-socket Arc<AtomicBool> stop flags, the shared outbound
channel and the global ID_COUNTER) is modelled as one explicit state record
MuxState that every operation threads.  A socket's stop flag and private
inbound channel are allocated together with its id in
SubWsSocketDescriptor::new, so clones of a socket (which share both Arcs and
copy the id) are exactly the descriptors with the same id; the state
therefore keys stop flags and inbound queues by socket id.  Calls into the
peer manager (new_inbound_connection / socket_disconnected) are recorded as
an event list; the peer manager's accept/reject decision is a parameter.
Bytes are lists of naturals; message payload contents are never interpreted.
-/

/-- MutinyError: only the ConnectionFailed variant is used by this file. -/
inductive MutinyError where
  | ConnectionFailed
deriving DecidableEq, Repr

/-- MutinyProxyCommand: the control commands exchanged as text frames
(ln_websocket_proxy::MutinyProxyCommand). -/
inductive MutinyProxyCommand where
  | Disconnect (toPk frPk : List Nat)
  | Ping
deriving DecidableEq, Repr

/-- Message: a websocket frame (gloo_net::websocket::Message).  A text frame
carries the result of serde-parsing it as a MutinyProxyCommand: none models a
malformed command string. -/
inductive Message where
  | Bytes (b : List Nat)
  | Text (cmd : Option MutinyProxyCommand)
deriving DecidableEq, Repr

/-- Chan: a crossbeam unbounded channel; send fails exactly when the channel
is disconnected. -/
structure Chan where
  queue : List Message
  disconnected : Bool
deriving DecidableEq, Repr

/-- chanSend: crossbeam Sender::send; returns the updated channel and whether
the send succeeded. -/
def chanSend (c : Chan) (m : Message) : Chan × Bool :=
  if c.disconnected then (c, false)
  else ({ c with queue := c.queue ++ [m] }, true)

/-- SubWsSocketDescriptor: the per-peer virtual socket.  The id is the value
drawn from ID_COUNTER; the stop flag and the read channel it shares with its
clones live in MuxState keyed by this id. -/
structure SubWsSocketDescriptor where
  peer_pubkey_bytes : List Nat
  our_pubkey_bytes : List Nat
  id : Nat
deriving DecidableEq, Repr

/-- PMEvent: one call made into the peer manager, recording the id of the
socket passed. -/
inductive PMEvent where
  | newInbound (sockId : Nat)
  | socketDisconnected (sockId : Nat)
deriving DecidableEq, Repr

/-- MuxState: the mutable state shared by a MultiWsSocketDescriptor and its
subsockets.  socket_map is the HashMap<Vec<u8>, (SubWsSocketDescriptor,
Sender<Message>)> (the sender half is keyed by the socket's id in
inboundQueues/inboundClosed); outbound is the shared
send_to_multi_socket/read_from_sub_socket channel; conn records whether the
write-once transport has been installed; nextId is ID_COUNTER. -/
structure MuxState where
  socket_map : List (List Nat × SubWsSocketDescriptor)
  inboundQueues : Nat → List Message
  inboundClosed : Nat → Bool
  stopFlags : Nat → Bool
  outbound : Chan
  conn : Bool
  connected : Bool
  nextId : Nat

/-- PUBKEY_BYTES_LEN: length of a compressed public key, the peer-id prefix
of every binary frame. -/
def PUBKEY_BYTES_LEN : Nat := 33

/-- mapRemove: HashMap::remove on the association-list model of the socket
map. -/
def mapRemove (k : List Nat) :
    List (List Nat × SubWsSocketDescriptor) → List (List Nat × SubWsSocketDescriptor)
  | [] => []
  | (k', v) :: rest =>
    if k' = k then mapRemove k rest else (k', v) :: mapRemove k rest

/-- mapInsert: HashMap::insert on the association-list model (replaces any
existing entry for the key). -/
def mapInsert (k : List Nat) (v : SubWsSocketDescriptor)
    (m : List (List Nat × SubWsSocketDescriptor)) :
    List (List Nat × SubWsSocketDescriptor) :=
  (k, v) :: mapRemove k m

/-- lookupSock: HashMap::get on the association-list model. -/
def lookupSock (k : List Nat) :
    List (List Nat × SubWsSocketDescriptor) → Option SubWsSocketDescriptor
  | [] => none
  | (k', v) :: rest => if k' = k then some v else lookupSock k rest

/-- SubWsSocketDescriptor.new: draws a fresh id from ID_COUNTER and allocates
a fresh (not stopped) stop flag.  The caller always pairs this with a freshly
created unbounded channel for the socket's read side, so the fresh empty open
inbound channel keyed by the new id is allocated here as well. -/
def SubWsSocketDescriptor.new (peer_pubkey_bytes our_pubkey_bytes : List Nat)
    (st : MuxState) : SubWsSocketDescriptor × MuxState :=
  let i := st.nextId
  (⟨peer_pubkey_bytes, our_pubkey_bytes, i⟩,
   { st with
      nextId := i + 1
      stopFlags := fun j => if j = i then false else st.stopFlags j
      inboundQueues := fun j => if j = i then [] else st.inboundQueues j
      inboundClosed := fun j => if j = i then false else st.inboundClosed j })

/-- SubWsSocketDescriptor.clone: copies every field; the id and the shared
Arcs (stop flag, channels) are preserved, so the clone is the same
descriptor value. -/
def SubWsSocketDescriptor.clone (s : SubWsSocketDescriptor) : SubWsSocketDescriptor :=
  ⟨s.peer_pubkey_bytes, s.our_pubkey_bytes, s.id⟩

/-- sockEqB: the PartialEq impl — equality is by id only. -/
def sockEqB (a b : SubWsSocketDescriptor) : Bool := a.id == b.id

/-- sockHash: the Hash impl feeds only the id to the hasher; the hash input
is modelled as the id itself. -/
def sockHash (s : SubWsSocketDescriptor) : Nat := s.id

/-- SubWsSocketDescriptor.stop_reading: store true into the shared stop
flag. -/
def SubWsSocketDescriptor.stop_reading (s : SubWsSocketDescriptor)
    (st : MuxState) : MuxState :=
  { st with stopFlags := fun j => if j = s.id then true else st.stopFlags j }

/-- disconnectMsg: the Disconnect{to, from} control command a subsocket sends
when disconnecting. -/
def disconnectMsg (s : SubWsSocketDescriptor) : Message :=
  Message.Text (some (MutinyProxyCommand.Disconnect s.peer_pubkey_bytes s.our_pubkey_bytes))

/-- SubWsSocketDescriptor.disconnect_socket: best-effort sends the Disconnect
control command on the shared outbound channel (a failure is only logged),
then stores true into the stop flag. -/
def SubWsSocketDescriptor.disconnect_socket (s : SubWsSocketDescriptor)
    (st : MuxState) : MuxState :=
  let r := chanSend st.outbound (disconnectMsg s)
  { st with
     outbound := r.1
     stopFlags := fun j => if j = s.id then true else st.stopFlags j }

/-- SubWsSocketDescriptor.send_data: returns 0 without touching anything if
the stop flag is set; otherwise prefixes the data with the peer pubkey,
sends on the shared outbound channel, and returns the data length on success
or 0 if the channel is disconnected. -/
def SubWsSocketDescriptor.send_data (s : SubWsSocketDescriptor)
    (data : List Nat) (st : MuxState) : Nat × MuxState :=
  if st.stopFlags s.id then (0, st)
  else
    let withAddr := s.peer_pubkey_bytes ++ data
    let r := chanSend st.outbound (Message.Bytes withAddr)
    if r.2 then (data.length, { st with outbound := r.1 })
    else (0, { st with outbound := r.1 })

/-- SubWsSocketDescriptor.read: the polling loop, with one unit of fuel per
iteration (each iteration checks the stop flag, then try_recv; a non-Bytes
message is consumed and ignored; an empty queue sleeps and retries).  Fuel
exhaustion (the loop still polling) is none. -/
def SubWsSocketDescriptor.read :
    Nat → SubWsSocketDescriptor → MuxState →
      Option (Except MutinyError (List Nat)) × MuxState
  | 0, _, st => (none, st)
  | fuel + 1, s, st =>
    if st.stopFlags s.id then
      (some (Except.error MutinyError.ConnectionFailed), st)
    else
      match st.inboundQueues s.id with
      | [] => SubWsSocketDescriptor.read fuel s st
      | m :: rest =>
        let st' := { st with
          inboundQueues := fun j => if j = s.id then rest else st.inboundQueues j }
        match m with
        | Message.Bytes b => (some (Except.ok b), st')
        | Message.Text _ => SubWsSocketDescriptor.read fuel s st'

/-- subChanSend: Sender::send on the private inbound channel of the socket
with the given id (the sender half stored in the socket map); on a
disconnected channel the error is only logged and the state is unchanged. -/
def subChanSend (st : MuxState) (sid : Nat) (m : Message) : MuxState :=
  if st.inboundClosed sid then st
  else { st with
    inboundQueues := fun j => if j = sid then st.inboundQueues sid ++ [m]
                              else st.inboundQueues j }

/-- create_new_subsocket: builds a new SubWsSocketDescriptor (with the fresh
channel its callers allocate) and inserts it into the socket map under the
peer pubkey. -/
def create_new_subsocket (peer_pubkey our_pubkey : List Nat)
    (st : MuxState) : SubWsSocketDescriptor × MuxState :=
  let r := SubWsSocketDescriptor.new peer_pubkey our_pubkey st
  (r.1, { r.2 with socket_map := mapInsert peer_pubkey r.1 r.2.socket_map })

/-- handle_incoming_msg: the dispatch function of the inbound loop.  accept
is the peer manager's new_inbound_connection decision for a given peer id;
the returned list records the peer-manager calls made, in order. -/
def handle_incoming_msg (accept : List Nat → Bool) (msg : Message)
    (our_peer_pubkey : List Nat) (st : MuxState) : MuxState × List PMEvent :=
  match msg with
  | Message.Text cmd =>
    match cmd with
    | none => (st, [])
    | some (MutinyProxyCommand.Disconnect _toPk fr) =>
      match lookupSock fr st.socket_map with
      | some subsocket =>
        let st1 := subsocket.stop_reading st
        ({ st1 with socket_map := mapRemove fr st1.socket_map },
         [PMEvent.socketDisconnected subsocket.id])
      | none => (st, [])
    | some MutinyProxyCommand.Ping => (st, [])
  | Message.Bytes msg =>
    if msg.length < PUBKEY_BYTES_LEN then (st, [])
    else
      let id_bytes := msg.take PUBKEY_BYTES_LEN
      let message_bytes := msg.drop PUBKEY_BYTES_LEN
      match lookupSock id_bytes st.socket_map with
      | some subsocket => (subChanSend st subsocket.id (Message.Bytes message_bytes), [])
      | none =>
        let r := create_new_subsocket id_bytes our_peer_pubkey st
        let inbound_subsocket := r.1
        if accept id_bytes then
          (subChanSend r.2 inbound_subsocket.id (Message.Bytes message_bytes),
           [PMEvent.newInbound inbound_subsocket.id])
        else
          let st2 := inbound_subsocket.disconnect_socket r.2
          ({ st2 with socket_map := mapRemove id_bytes st2.socket_map },
           [PMEvent.newInbound inbound_subsocket.id,
            PMEvent.socketDisconnected inbound_subsocket.id])

/-- MultiWsSocketDescriptor.connect: under the socket-map lock, disconnect
every existing subsocket and notify the peer manager for each, clear the
map, install the transport (write-once), set the connected flag, and start
the two loops (the spawned loops themselves are outside this state
transition). -/
def MultiWsSocketDescriptor.connect (st : MuxState) : MuxState × List PMEvent :=
  let st1 := st.socket_map.foldl (fun acc e => e.2.disconnect_socket acc) st
  ({ st1 with socket_map := [], conn := true, connected := true },
   st.socket_map.map (fun e => PMEvent.socketDisconnected e.2.id))

/-- Proxy: state of the underlying transport connection of the direct
socket.  Modelled from the spec: the file networking/proxy.rs is not under
src/; the transport capability has fire-and-forget send that never blocks
and never fails loudly, and idempotent close. -/
structure Proxy where
  sent : List Message
  closed : Bool
deriving DecidableEq, Repr

/-- Proxy.send: fire-and-forget; it returns nothing to the caller. -/
def Proxy.send (p : Proxy) (m : Message) : Proxy :=
  { p with sent := p.sent ++ [m] }

/-- WsTcpSocketDescriptor: the direct 1:1 socket wrapping one proxy
connection. -/
structure WsTcpSocketDescriptor where
  conn : Proxy
  id : Nat
deriving DecidableEq, Repr

/-- WsTcpSocketDescriptor.send_data: copies the data into a Bytes message,
fires it at the connection, and returns the data length. -/
def WsTcpSocketDescriptor.send_data (s : WsTcpSocketDescriptor)
    (data : List Nat) : Nat × WsTcpSocketDescriptor :=
  let vec := data
  (data.length, { s with conn := s.conn.send (Message.Bytes vec) })

/-- WsTcpSocketDescriptor.read, as a function of the value the underlying
conn.read() yielded: a binary frame passes through, a text frame is ignored,
a transport error becomes ConnectionFailed, and end-of-stream stays none. -/
def WsTcpSocketDescriptor.read (r : Option (Except Unit Message)) :
    Option (Except MutinyError (List Nat)) :=
  match r with
  | some (Except.ok (Message.Bytes b)) => some (Except.ok b)
  | some (Except.ok (Message.Text _)) => none
  | some (Except.error _) => some (Except.error MutinyError.ConnectionFailed)
  | none => none

/-- WsTcpSocketDescriptor.disconnect_socket: spawns conn.close(). -/
def WsTcpSocketDescriptor.disconnect_socket (s : WsTcpSocketDescriptor) :
    WsTcpSocketDescriptor :=
  { s with conn := { s.conn with closed := true } }

/-- Op: one call of the module's API, acting on the shared state; used to
state properties over arbitrary continuations of an execution. -/
inductive Op where
  | incoming (accept : List Nat → Bool) (msg : Message) (our : List Nat)
  | connectMux
  | newSub (peer our : List Nat)
  | createSub (peer our : List Nat)
  | sendData (s : SubWsSocketDescriptor) (data : List Nat)
  | disconnectSub (s : SubWsSocketDescriptor)
  | stopRead (s : SubWsSocketDescriptor)
  | readSub (fuel : Nat) (s : SubWsSocketDescriptor)

/-- applyOp: the state transition of each API call. -/
def applyOp (st : MuxState) : Op → MuxState
  | Op.incoming accept msg our => (handle_incoming_msg accept msg our st).1
  | Op.connectMux => (MultiWsSocketDescriptor.connect st).1
  | Op.newSub p o => (SubWsSocketDescriptor.new p o st).2
  | Op.createSub p o => (create_new_subsocket p o st).2
  | Op.sendData s d => (s.send_data d st).2
  | Op.disconnectSub s => s.disconnect_socket st
  | Op.stopRead s => s.stop_reading st
  | Op.readSub f s => (SubWsSocketDescriptor.read f s st).2

theorem subChanSend_nextId (st : MuxState) (sid : Nat) (m : Message) :
    (subChanSend st sid m).nextId = st.nextId := by
  unfold subChanSend; split <;> rfl

theorem subChanSend_stopFlags (st : MuxState) (sid : Nat) (m : Message) :
    (subChanSend st sid m).stopFlags = st.stopFlags := by
  unfold subChanSend; split <;> rfl

theorem read_stopFlags (fuel : Nat) (s : SubWsSocketDescriptor) (st : MuxState) :
    (SubWsSocketDescriptor.read fuel s st).2.stopFlags = st.stopFlags := by
  induction fuel generalizing st with
  | zero => rfl
  | succ n ih =>
    rw [SubWsSocketDescriptor.read]
    cases hc : st.stopFlags s.id with
    | true => simp
    | false =>
      simp only [Bool.false_eq_true, if_false]
      cases hq : st.inboundQueues s.id with
      | nil => exact ih st
      | cons m rest =>
        cases m with
        | Bytes b => rfl
        | Text c => exact ih _

theorem read_nextId (fuel : Nat) (s : SubWsSocketDescriptor) (st : MuxState) :
    (SubWsSocketDescriptor.read fuel s st).2.nextId = st.nextId := by
  induction fuel generalizing st with
  | zero => rfl
  | succ n ih =>
    rw [SubWsSocketDescriptor.read]
    cases hc : st.stopFlags s.id with
    | true => simp
    | false =>
      simp only [Bool.false_eq_true, if_false]
      cases hq : st.inboundQueues s.id with
      | nil => exact ih st
      | cons m rest =>
        cases m with
        | Bytes b => rfl
        | Text c => exact ih _

theorem foldl_dis_nextId (l : List (List Nat × SubWsSocketDescriptor)) (st : MuxState) :
    (l.foldl (fun acc e => e.2.disconnect_socket acc) st).nextId = st.nextId := by
  induction l generalizing st with
  | nil => rfl
  | cons a rest ih => exact (ih _).trans rfl

theorem foldl_dis_sf_true (l : List (List Nat × SubWsSocketDescriptor)) (st : MuxState)
    (i : Nat) (h : st.stopFlags i = true) :
    (l.foldl (fun acc e => e.2.disconnect_socket acc) st).stopFlags i = true := by
  induction l generalizing st with
  | nil => exact h
  | cons a rest ih =>
    apply ih
    show (if i = a.2.id then true else st.stopFlags i) = true
    split <;> simp [h]

theorem foldl_dis_sf_mem (l : List (List Nat × SubWsSocketDescriptor)) (st : MuxState)
    (p : List Nat × SubWsSocketDescriptor) (hp : p ∈ l) :
    (l.foldl (fun acc e => e.2.disconnect_socket acc) st).stopFlags p.2.id = true := by
  induction l generalizing st with
  | nil => cases hp
  | cons a rest ih =>
    cases hp with
    | head =>
      have hd : (p.2.disconnect_socket st).stopFlags p.2.id = true := by
        simp [SubWsSocketDescriptor.disconnect_socket]
      exact foldl_dis_sf_true rest _ _ hd
    | tail _ h => exact ih _ h

theorem handle_preserve (accept : List Nat → Bool) (msg : Message)
    (our : List Nat) (st : MuxState) (i : Nat)
    (hlt : i < st.nextId) (hs : st.stopFlags i = true) :
    st.nextId ≤ (handle_incoming_msg accept msg our st).1.nextId ∧
      (handle_incoming_msg accept msg our st).1.stopFlags i = true := by
  cases msg with
  | Text cmd =>
    match cmd with
    | none => exact ⟨le_refl _, hs⟩
    | some MutinyProxyCommand.Ping => exact ⟨le_refl _, hs⟩
    | some (MutinyProxyCommand.Disconnect t f) =>
      rw [handle_incoming_msg]
      cases hq : lookupSock f st.socket_map with
      | none => exact ⟨le_refl _, hs⟩
      | some sub =>
        refine ⟨le_refl _, ?_⟩
        show (if i = sub.id then true else st.stopFlags i) = true
        split <;> simp [hs]
  | Bytes m =>
    rw [handle_incoming_msg]
    by_cases hlen : m.length < PUBKEY_BYTES_LEN
    · simp only [hlen, if_true]
      exact ⟨le_refl _, hs⟩
    · simp only [hlen, if_false]
      cases hq : lookupSock (m.take PUBKEY_BYTES_LEN) st.socket_map with
      | some sub =>
        refine ⟨le_of_eq (subChanSend_nextId st sub.id _).symm, ?_⟩
        rw [subChanSend_stopFlags]
        exact hs
      | none =>
        have hne : i ≠ st.nextId := Nat.ne_of_lt hlt
        by_cases ha : accept (m.take PUBKEY_BYTES_LEN)
        · simp only [ha, if_true]
          constructor
          · rw [subChanSend_nextId]
            exact Nat.le_succ _
          · rw [subChanSend_stopFlags]
            show (if i = st.nextId then false else st.stopFlags i) = true
            simp [hne, hs]
        · simp only [ha, if_false]
          refine ⟨Nat.le_succ _, ?_⟩
          show (if i = st.nextId then true
                else if i = st.nextId then false else st.stopFlags i) = true
          simp [hne, hs]

theorem applyOp_preserve (st : MuxState) (op : Op) (i : Nat)
    (hlt : i < st.nextId) (hs : st.stopFlags i = true) :
    st.nextId ≤ (applyOp st op).nextId ∧ (applyOp st op).stopFlags i = true := by
  cases op with
  | incoming a m o => exact handle_preserve a m o st i hlt hs
  | connectMux =>
    refine ⟨le_of_eq ?_, ?_⟩
    · show st.nextId = (st.socket_map.foldl (fun acc e => e.2.disconnect_socket acc) st).nextId
      exact (foldl_dis_nextId _ _).symm
    · show (st.socket_map.foldl (fun acc e => e.2.disconnect_socket acc) st).stopFlags i = true
      exact foldl_dis_sf_true _ _ _ hs
  | newSub p o =>
    refine ⟨Nat.le_succ _, ?_⟩
    show (if i = st.nextId then false else st.stopFlags i) = true
    simp [Nat.ne_of_lt hlt, hs]
  | createSub p o =>
    refine ⟨Nat.le_succ _, ?_⟩
    show (if i = st.nextId then false else st.stopFlags i) = true
    simp [Nat.ne_of_lt hlt, hs]
  | sendData s d =>
    show st.nextId ≤ (SubWsSocketDescriptor.send_data s d st).2.nextId ∧
      (SubWsSocketDescriptor.send_data s d st).2.stopFlags i = true
    unfold SubWsSocketDescriptor.send_data
    split
    · exact ⟨le_refl _, hs⟩
    · dsimp only
      split
      · exact ⟨le_refl _, hs⟩
      · exact ⟨le_refl _, hs⟩
  | disconnectSub s =>
    refine ⟨le_refl _, ?_⟩
    show (if i = s.id then true else st.stopFlags i) = true
    split <;> simp [hs]
  | stopRead s =>
    refine ⟨le_refl _, ?_⟩
    show (if i = s.id then true else st.stopFlags i) = true
    split <;> simp [hs]
  | readSub f s =>
    refine ⟨le_of_eq (read_nextId f s st).symm, ?_⟩
    show (SubWsSocketDescriptor.read f s st).2.stopFlags i = true
    rw [read_stopFlags]
    exact hs

theorem applyOps_preserve (ops : List Op) (st : MuxState) (i : Nat)
    (hlt : i < st.nextId) (hs : st.stopFlags i = true) :
    st.nextId ≤ (ops.foldl applyOp st).nextId ∧
      (ops.foldl applyOp st).stopFlags i = true := by
  induction ops generalizing st with
  | nil => exact ⟨le_refl _, hs⟩
  | cons op rest ih =>
    obtain ⟨h1, h2⟩ := applyOp_preserve st op i hlt hs
    obtain ⟨h3, h4⟩ := ih (applyOp st op) (lt_of_lt_of_le hlt h1) h2
    exact ⟨le_trans h1 h3, h4⟩

theorem lookupSock_mapRemove_self (k : List Nat)
    (m : List (List Nat × SubWsSocketDescriptor)) :
    lookupSock k (mapRemove k m) = none := by
  induction m with
  | nil => rfl
  | cons e rest ih =>
    rw [mapRemove]
    split
    · exact ih
    · rw [lookupSock]
      split
      · simp_all
      · exact ih

/-- emptyState: the state a fresh MultiWsSocketDescriptor::new produces: no
transport, not connected, empty map, fresh unbounded outbound channel. -/
def emptyState : MuxState :=
  ⟨[], fun _ => [], fun _ => false, fun _ => false, ⟨[], false⟩, false, false, 0⟩

/-- C3: virtual-socket send contract.  If the stop flag is set, send_data
returns 0 and changes nothing; otherwise, if the shared outbound channel is
open, it enqueues the single message peer_id‖data and returns len(data); if
the channel is disconnected it returns 0 and enqueues nothing.  send_data is
a total function into Nat, so it never blocks and never returns a
synchronous error to the caller. -/
theorem c3_send_contract (s : SubWsSocketDescriptor) (data : List Nat)
    (st : MuxState) :
    (st.stopFlags s.id = true → s.send_data data st = (0, st)) ∧
    (st.stopFlags s.id = false → st.outbound.disconnected = false →
       s.send_data data st =
         (data.length,
          { st with outbound :=
              { st.outbound with
                  queue := st.outbound.queue
                    ++ [Message.Bytes (s.peer_pubkey_bytes ++ data)] } })) ∧
    (st.stopFlags s.id = false → st.outbound.disconnected = true →
       s.send_data data st = (0, st)) := by
  refine ⟨?_, ?_, ?_⟩
  · intro h
    simp [SubWsSocketDescriptor.send_data, h]
  · intro h1 h2
    simp [SubWsSocketDescriptor.send_data, h1, chanSend, h2]
  · intro h1 h2
    simp [SubWsSocketDescriptor.send_data, h1, chanSend, h2]

theorem c3_witness :
    (SubWsSocketDescriptor.send_data ⟨[1], [2], 0⟩ [5, 6] emptyState).1 = 2 ∧
    (SubWsSocketDescriptor.send_data ⟨[1], [2], 0⟩ [5, 6]
        { emptyState with stopFlags := fun _ => true }).1 = 0 ∧
    (SubWsSocketDescriptor.send_data ⟨[1], [2], 0⟩ [5, 6]
        { emptyState with outbound := ⟨[], true⟩ }).1 = 0 := by
  refine ⟨?_, ?_, ?_⟩
  · rw [(c3_send_contract ⟨[1], [2], 0⟩ [5, 6] emptyState).2.1 (by decide) (by decide)]
    rfl
  · rw [(c3_send_contract ⟨[1], [2], 0⟩ [5, 6] _).1 (by decide)]
  · rw [(c3_send_contract ⟨[1], [2], 0⟩ [5, 6]
        { emptyState with outbound := ⟨[], true⟩ }).2.2 (by decide) (by decide)]

/-- C7: a binary frame shorter than 33 bytes is dropped with the state
untouched and no peer-manager call; a frame of exactly 33 bytes is processed
as a peer id with empty payload (here: for a registered peer with an open
inbound channel, the empty payload is enqueued and no peer-manager call is
made). -/
theorem c7_undersized_boundary (accept : List Nat → Bool) (our : List Nat)
    (st : MuxState) :
    (∀ bytes : List Nat, bytes.length < 33 →
       handle_incoming_msg accept (Message.Bytes bytes) our st = (st, [])) ∧
    (∀ bytes s, bytes.length = 33 →
       lookupSock bytes st.socket_map = some s →
       st.inboundClosed s.id = false →
       (handle_incoming_msg accept (Message.Bytes bytes) our st).1.inboundQueues s.id
          = st.inboundQueues s.id ++ [Message.Bytes []] ∧
       (handle_incoming_msg accept (Message.Bytes bytes) our st).2 = []) := by
  constructor
  · intro bytes h
    have h' : bytes.length < PUBKEY_BYTES_LEN := by simpa [PUBKEY_BYTES_LEN] using h
    simp [handle_incoming_msg, h']
  · intro bytes s hl hlook hcl
    have hnl : ¬ (bytes.length < PUBKEY_BYTES_LEN) := by simp [PUBKEY_BYTES_LEN, hl]
    have ht : bytes.take PUBKEY_BYTES_LEN = bytes :=
      List.take_of_length_le (by simp [PUBKEY_BYTES_LEN, hl])
    have hd : bytes.drop PUBKEY_BYTES_LEN = [] :=
      List.drop_eq_nil_of_le (by simp [PUBKEY_BYTES_LEN, hl])
    simp [handle_incoming_msg, hnl, ht, hd, hlook, subChanSend, hcl]

/-- st33: a state whose socket map registers the 33-byte peer id 7…7 with a
socket of id 0. -/
def st33 : MuxState :=
  { emptyState with
     socket_map := [(List.replicate 33 7, ⟨List.replicate 33 7, [9], 0⟩)]
     nextId := 1 }

theorem c7_witness :
    handle_incoming_msg (fun _ => true) (Message.Bytes [1, 2, 3]) [9] emptyState
      = (emptyState, []) ∧
    (handle_incoming_msg (fun _ => true) (Message.Bytes (List.replicate 33 7))
        [9] st33).1.inboundQueues 0 = [Message.Bytes []] := by
  constructor
  · exact (c7_undersized_boundary (fun _ => true) [9] emptyState).1 [1, 2, 3] (by decide)
  · have h := (c7_undersized_boundary (fun _ => true) [9] st33).2
      (List.replicate 33 7) ⟨List.replicate 33 7, [9], 0⟩
      (by decide) (by decide) (by decide)
    rw [h.1]
    rfl

/-- C8: socket identity is the creation-order integer only: two constructor
calls always draw distinct ids (the second call starts from a state whose
counter exceeds the first call's, which nextId monotonicity of every
operation guarantees, and which holds in particular for back-to-back calls),
so the sockets compare unequal and feed different values to the hasher,
whatever their peer ids; a socket compares and hashes equal to its own
clone. -/
theorem c8_socket_identity (p1 o1 p2 o2 : List Nat) (st1 st2 : MuxState)
    (h : st1.nextId < st2.nextId) :
    (sockEqB (SubWsSocketDescriptor.new p1 o1 st1).1
        (SubWsSocketDescriptor.new p2 o2 st2).1 = false ∧
     sockHash (SubWsSocketDescriptor.new p1 o1 st1).1 ≠
        sockHash (SubWsSocketDescriptor.new p2 o2 st2).1) ∧
    (∀ q1 r1 q2 r2 : List Nat,
       sockEqB (SubWsSocketDescriptor.new q1 r1 st1).1
         (SubWsSocketDescriptor.new q2 r2 (SubWsSocketDescriptor.new q1 r1 st1).2).1
         = false) ∧
    (∀ s : SubWsSocketDescriptor,
       sockEqB s s.clone = true ∧ sockHash s = sockHash s.clone) := by
  refine ⟨⟨?_, ?_⟩, ?_, ?_⟩
  · simp [sockEqB, SubWsSocketDescriptor.new, Nat.ne_of_lt h]
  · simp [sockHash, SubWsSocketDescriptor.new, Nat.ne_of_lt h]
  · intro q1 r1 q2 r2
    simp [sockEqB, SubWsSocketDescriptor.new]
  · intro s
    simp [sockEqB, sockHash, SubWsSocketDescriptor.clone]

theorem c8_witness :
    sockEqB (SubWsSocketDescriptor.new [1] [2] emptyState).1
        (SubWsSocketDescriptor.new [1] [2] { emptyState with nextId := 5 }).1
        = false ∧
    sockEqB ⟨[3], [4], 9⟩ (SubWsSocketDescriptor.clone ⟨[3], [4], 9⟩) = true := by
  have h := c8_socket_identity [1] [2] [1] [2] emptyState
    { emptyState with nextId := 5 } (by decide)
  exact ⟨h.1.1, (h.2.2 ⟨[3], [4], 9⟩).1⟩

/-- C9 counterexample: the claim says the direct socket's send_data returns 0
when the underlying connection is gone; on a closed connection and data [5]
it returns 1 (the direct socket has no stop flag and its send is
fire-and-forget, so send_data always returns the data length). -/
theorem c9_counterexample :
    ¬ ((WsTcpSocketDescriptor.send_data ⟨⟨[], true⟩, 0⟩ [5]).1 = 0) := by
  decide

/-- C9 amended: the direct socket's send_data always returns len(data) and
never raises, forwarding the bytes fire-and-forget even on a closed
connection (it has no stopped state); its read passes binary frames through
as Ok(bytes), ignores text frames, maps a transport error to
ConnectionFailed, and yields none (not a failure) on graceful close. -/
theorem c9_direct_socket (s : WsTcpSocketDescriptor) (data : List Nat) :
    (s.send_data data).1 = data.length ∧
    (s.send_data data).2.conn.sent = s.conn.sent ++ [Message.Bytes data] ∧
    (∀ b, WsTcpSocketDescriptor.read (some (Except.ok (Message.Bytes b)))
       = some (Except.ok b)) ∧
    (∀ t, WsTcpSocketDescriptor.read (some (Except.ok (Message.Text t))) = none) ∧
    (∀ e : Unit, WsTcpSocketDescriptor.read (some (Except.error e))
       = some (Except.error MutinyError.ConnectionFailed)) ∧
    WsTcpSocketDescriptor.read none = none := by
  exact ⟨rfl, rfl, fun b => rfl, fun t => rfl, fun e => rfl, rfl⟩

/-- C1: round-trip of the binary channel.  For a 33-byte peer id P: if the
address table maps P to socket s whose private inbound queue is empty and
open, dispatching P‖payload enqueues exactly the one message payload on s's
queue, makes no peer-manager call, and a read on the non-stopped s returns
Ok(payload); if P is absent and the peer manager accepts the new inbound
socket, the newly created socket's queue receives exactly payload (and its
read likewise returns it). -/
theorem c1_round_trip (accept : List Nat → Bool) (P payload our : List Nat)
    (st : MuxState) (hP : P.length = 33) :
    (∀ s, lookupSock P st.socket_map = some s →
       st.inboundQueues s.id = [] →
       st.inboundClosed s.id = false →
       st.stopFlags s.id = false →
       (handle_incoming_msg accept (Message.Bytes (P ++ payload)) our st).1.inboundQueues s.id
          = [Message.Bytes payload] ∧
       (handle_incoming_msg accept (Message.Bytes (P ++ payload)) our st).2 = [] ∧
       (SubWsSocketDescriptor.read 1 s
          (handle_incoming_msg accept (Message.Bytes (P ++ payload)) our st).1).1
          = some (Except.ok payload)) ∧
    (lookupSock P st.socket_map = none → accept P = true →
       (handle_incoming_msg accept (Message.Bytes (P ++ payload)) our st).1.inboundQueues st.nextId
          = [Message.Bytes payload] ∧
       lookupSock P (handle_incoming_msg accept (Message.Bytes (P ++ payload)) our st).1.socket_map
          = some ⟨P, our, st.nextId⟩ ∧
       (handle_incoming_msg accept (Message.Bytes (P ++ payload)) our st).2
          = [PMEvent.newInbound st.nextId] ∧
       (SubWsSocketDescriptor.read 1 ⟨P, our, st.nextId⟩
          (handle_incoming_msg accept (Message.Bytes (P ++ payload)) our st).1).1
          = some (Except.ok payload)) := by
  have hnl : ¬ ((P ++ payload).length < PUBKEY_BYTES_LEN) := by
    rw [List.length_append, hP]
    simp [PUBKEY_BYTES_LEN]
  have hnl' : ¬ (P.length + payload.length < PUBKEY_BYTES_LEN) := by
    rw [hP]
    simp [PUBKEY_BYTES_LEN]
  have ht : (P ++ payload).take PUBKEY_BYTES_LEN = P :=
    List.take_left' (hP.trans rfl)
  have hd : (P ++ payload).drop PUBKEY_BYTES_LEN = payload :=
    List.drop_left' (hP.trans rfl)
  constructor
  · intro s hlook hq hcl hsf
    have hh : handle_incoming_msg accept (Message.Bytes (P ++ payload)) our st
        = (subChanSend st s.id (Message.Bytes payload), []) := by
      simp [handle_incoming_msg, hnl, hnl', ht, hd, hlook]
    rw [hh]
    refine ⟨?_, rfl, ?_⟩
    · simp [subChanSend, hcl, hq]
    · simp [SubWsSocketDescriptor.read, subChanSend, hcl, hsf, hq]
  · intro hlook hacc
    have hh : handle_incoming_msg accept (Message.Bytes (P ++ payload)) our st
        = (subChanSend (create_new_subsocket P our st).2 st.nextId
             (Message.Bytes payload),
           [PMEvent.newInbound st.nextId]) := by
      simp [handle_incoming_msg, hnl, hnl', ht, hd, hlook, hacc,
            create_new_subsocket, SubWsSocketDescriptor.new]
    rw [hh]
    refine ⟨?_, ?_, rfl, ?_⟩
    · simp [subChanSend, create_new_subsocket, SubWsSocketDescriptor.new]
    · simp [subChanSend, create_new_subsocket, SubWsSocketDescriptor.new,
            mapInsert, lookupSock]
    · simp [SubWsSocketDescriptor.read, subChanSend, create_new_subsocket,
            SubWsSocketDescriptor.new]

theorem c1_witness :
    (handle_incoming_msg (fun _ => true)
        (Message.Bytes (List.replicate 33 7 ++ [5])) [9] st33).1.inboundQueues 0
      = [Message.Bytes [5]] ∧
    (SubWsSocketDescriptor.read 1 ⟨List.replicate 33 7, [9], 0⟩
        (handle_incoming_msg (fun _ => true)
          (Message.Bytes (List.replicate 33 7 ++ [5])) [9] st33).1).1
      = some (Except.ok [5]) ∧
    (handle_incoming_msg (fun _ => true)
        (Message.Bytes (List.replicate 33 7 ++ [5])) [9] emptyState).1.inboundQueues 0
      = [Message.Bytes [5]] := by
  have h := c1_round_trip (fun _ => true) (List.replicate 33 7) [5] [9] st33
    (by decide)
  have h2 := c1_round_trip (fun _ => true) (List.replicate 33 7) [5] [9] emptyState
    (by decide)
  have hA := h.1 ⟨List.replicate 33 7, [9], 0⟩ (by decide) (by decide)
    (by decide) (by decide)
  have hB := h2.2 (by decide) (by decide)
  exact ⟨hA.1, hA.2.2, hB.1⟩

theorem subChanSend_socket_map (st : MuxState) (sid : Nat) (m : Message) :
    (subChanSend st sid m).socket_map = st.socket_map := by
  unfold subChanSend; split <;> rfl

/-- C2: dispatching two binary frames B‖a then B‖b for an unseen peer B (the
second after the first completes) creates exactly one socket (the id counter
advances once), registers it with the peer manager exactly once, leaves B
mapped to that single socket, and routes b to the already-created socket's
queue behind a. -/
theorem c2_single_socket_per_peer (accept : List Nat → Bool) (B a b our : List Nat)
    (st : MuxState) (hB : B.length = 33)
    (hlook : lookupSock B st.socket_map = none)
    (hacc : accept B = true) :
    (handle_incoming_msg accept (Message.Bytes (B ++ b)) our
        (handle_incoming_msg accept (Message.Bytes (B ++ a)) our st).1).1.nextId
      = st.nextId + 1 ∧
    lookupSock B (handle_incoming_msg accept (Message.Bytes (B ++ b)) our
        (handle_incoming_msg accept (Message.Bytes (B ++ a)) our st).1).1.socket_map
      = some ⟨B, our, st.nextId⟩ ∧
    (handle_incoming_msg accept (Message.Bytes (B ++ b)) our
        (handle_incoming_msg accept (Message.Bytes (B ++ a)) our st).1).1.inboundQueues
        st.nextId
      = [Message.Bytes a, Message.Bytes b] ∧
    (handle_incoming_msg accept (Message.Bytes (B ++ a)) our st).2
       ++ (handle_incoming_msg accept (Message.Bytes (B ++ b)) our
            (handle_incoming_msg accept (Message.Bytes (B ++ a)) our st).1).2
      = [PMEvent.newInbound st.nextId] := by
  have hnl1 : ¬ ((B ++ a).length < PUBKEY_BYTES_LEN) := by
    rw [List.length_append, hB]
    simp [PUBKEY_BYTES_LEN]
  have hnl2 : ¬ ((B ++ b).length < PUBKEY_BYTES_LEN) := by
    rw [List.length_append, hB]
    simp [PUBKEY_BYTES_LEN]
  have hnl1' : ¬ (B.length + a.length < PUBKEY_BYTES_LEN) := by
    rw [hB]
    simp [PUBKEY_BYTES_LEN]
  have hnl2' : ¬ (B.length + b.length < PUBKEY_BYTES_LEN) := by
    rw [hB]
    simp [PUBKEY_BYTES_LEN]
  have hta : (B ++ a).take PUBKEY_BYTES_LEN = B := List.take_left' (hB.trans rfl)
  have hda : (B ++ a).drop PUBKEY_BYTES_LEN = a := List.drop_left' (hB.trans rfl)
  have htb : (B ++ b).take PUBKEY_BYTES_LEN = B := List.take_left' (hB.trans rfl)
  have hdb : (B ++ b).drop PUBKEY_BYTES_LEN = b := List.drop_left' (hB.trans rfl)
  have hh1 : handle_incoming_msg accept (Message.Bytes (B ++ a)) our st
      = (subChanSend (create_new_subsocket B our st).2 st.nextId (Message.Bytes a),
         [PMEvent.newInbound st.nextId]) := by
    simp [handle_incoming_msg, hnl1, hnl1', hta, hda, hlook, hacc,
          create_new_subsocket, SubWsSocketDescriptor.new]
  have hm1 : (handle_incoming_msg accept (Message.Bytes (B ++ a)) our st).1.socket_map
      = (B, (⟨B, our, st.nextId⟩ : SubWsSocketDescriptor)) :: mapRemove B st.socket_map := by
    rw [hh1, subChanSend_socket_map]
    simp [create_new_subsocket, SubWsSocketDescriptor.new, mapInsert]
  have hq1 : (handle_incoming_msg accept (Message.Bytes (B ++ a)) our st).1.inboundQueues
      st.nextId = [Message.Bytes a] := by
    rw [hh1]
    simp [subChanSend, create_new_subsocket, SubWsSocketDescriptor.new]
  have hc1 : (handle_incoming_msg accept (Message.Bytes (B ++ a)) our st).1.inboundClosed
      st.nextId = false := by
    rw [hh1]
    simp [subChanSend, create_new_subsocket, SubWsSocketDescriptor.new]
  have hn1 : (handle_incoming_msg accept (Message.Bytes (B ++ a)) our st).1.nextId
      = st.nextId + 1 := by
    rw [hh1, subChanSend_nextId]
    rfl
  have hlook1 : lookupSock B
      (handle_incoming_msg accept (Message.Bytes (B ++ a)) our st).1.socket_map
      = some ⟨B, our, st.nextId⟩ := by
    rw [hm1]
    simp [lookupSock]
  have hh2 : handle_incoming_msg accept (Message.Bytes (B ++ b)) our
      (handle_incoming_msg accept (Message.Bytes (B ++ a)) our st).1
      = (subChanSend (handle_incoming_msg accept (Message.Bytes (B ++ a)) our st).1
           st.nextId (Message.Bytes b), []) := by
    generalize hst1 : (handle_incoming_msg accept (Message.Bytes (B ++ a)) our st).1
      = st1 at hlook1 ⊢
    simp [handle_incoming_msg, hnl2, hnl2', htb, hdb, hlook1]
  refine ⟨?_, ?_, ?_, ?_⟩
  · rw [hh2]
    show (subChanSend _ _ _).nextId = st.nextId + 1
    rw [subChanSend_nextId]
    exact hn1
  · rw [hh2]
    show lookupSock B (subChanSend _ _ _).socket_map = _
    rw [subChanSend_socket_map]
    exact hlook1
  · rw [hh2]
    show (subChanSend _ _ _).inboundQueues st.nextId = _
    simp [subChanSend, hc1, hq1]
  · have he1 : (handle_incoming_msg accept (Message.Bytes (B ++ a)) our st).2
        = [PMEvent.newInbound st.nextId] := by rw [hh1]
    rw [hh2, he1]
    simp

theorem c2_witness :
    (handle_incoming_msg (fun _ => true)
        (Message.Bytes (List.replicate 33 7 ++ [2])) [9]
        (handle_incoming_msg (fun _ => true)
          (Message.Bytes (List.replicate 33 7 ++ [1])) [9] emptyState).1).1.nextId = 1 ∧
    (handle_incoming_msg (fun _ => true)
        (Message.Bytes (List.replicate 33 7 ++ [2])) [9]
        (handle_incoming_msg (fun _ => true)
          (Message.Bytes (List.replicate 33 7 ++ [1])) [9] emptyState).1).1.inboundQueues 0
      = [Message.Bytes [1], Message.Bytes [2]] := by
  have h := c2_single_socket_per_peer (fun _ => true) (List.replicate 33 7) [1] [2] [9]
    emptyState (by decide) (by decide) (by decide)
  exact ⟨h.1, h.2.2.1⟩

/-- C4: connect with k stale entries: every stale socket's stop flag is set,
the peer manager is told "disconnected" exactly once per entry (given the
entries' socket ids are pairwise distinct, which creation guarantees), the
table ends empty, the transport is recorded installed, and the connected
flag is set.  connect performs all of this in one atomic transition of the
model (the source holds the table lock throughout), so it completes before
any frame of the new transport is dispatched. -/
theorem c4_connect_clears (st : MuxState)
    (hnd : (st.socket_map.map (fun e => e.2.id)).Nodup) :
    (MultiWsSocketDescriptor.connect st).1.socket_map = [] ∧
    (MultiWsSocketDescriptor.connect st).1.conn = true ∧
    (MultiWsSocketDescriptor.connect st).1.connected = true ∧
    (∀ p ∈ st.socket_map,
       (MultiWsSocketDescriptor.connect st).1.stopFlags p.2.id = true) ∧
    (∀ p ∈ st.socket_map,
       (MultiWsSocketDescriptor.connect st).2.count
         (PMEvent.socketDisconnected p.2.id) = 1) := by
  refine ⟨rfl, rfl, rfl, ?_, ?_⟩
  · intro p hp
    show (st.socket_map.foldl (fun acc e => e.2.disconnect_socket acc) st).stopFlags
        p.2.id = true
    exact foldl_dis_sf_mem _ st p hp
  · intro p hp
    show (st.socket_map.map (fun e => PMEvent.socketDisconnected e.2.id)).count
        (PMEvent.socketDisconnected p.2.id) = 1
    have hinj : Function.Injective PMEvent.socketDisconnected := by
      intro x y hxy
      simpa using hxy
    have hmm : st.socket_map.map (fun e => PMEvent.socketDisconnected e.2.id)
        = (st.socket_map.map (fun e => e.2.id)).map PMEvent.socketDisconnected := by
      rw [List.map_map]
      rfl
    rw [hmm]
    have hnd2 : ((st.socket_map.map (fun e => e.2.id)).map
        PMEvent.socketDisconnected).Nodup := hnd.map hinj
    have hmem : PMEvent.socketDisconnected p.2.id ∈
        (st.socket_map.map (fun e => e.2.id)).map PMEvent.socketDisconnected := by
      rw [← hmm]
      exact List.mem_map_of_mem _ hp
    exact List.count_eq_one_of_mem hnd2 hmem

/-- st4: a state whose socket map holds two stale entries with distinct
socket ids. -/
def st4 : MuxState :=
  { emptyState with
     socket_map := [([1], ⟨[1], [9], 0⟩), ([2], ⟨[2], [9], 1⟩)]
     nextId := 2 }

theorem c4_witness :
    (MultiWsSocketDescriptor.connect st4).1.socket_map = [] ∧
    (MultiWsSocketDescriptor.connect st4).1.connected = true ∧
    (MultiWsSocketDescriptor.connect st4).1.stopFlags 0 = true ∧
    (MultiWsSocketDescriptor.connect st4).1.stopFlags 1 = true ∧
    (MultiWsSocketDescriptor.connect st4).2.count (PMEvent.socketDisconnected 0) = 1 := by
  have h := c4_connect_clears st4 (by decide)
  exact ⟨h.1, h.2.2.1,
    h.2.2.2.1 ([1], ⟨[1], [9], 0⟩) (by decide),
    h.2.2.2.1 ([2], ⟨[2], [9], 1⟩) (by decide),
    h.2.2.2.2 ([1], ⟨[1], [9], 0⟩) (by decide)⟩

/-- C5: rejected-inbound atomicity.  For an unseen 33-byte peer id P whose
registration the peer manager rejects, the handler fully unwinds: the table
ends with no entry for P, the peer manager saw exactly the registration call
followed by one disconnection call for the just-created socket, the socket's
stop flag is set, its queue stays empty (the payload was never delivered),
and no other socket's queue changed. -/
theorem c5_rejected_unwind (accept : List Nat → Bool) (P pl our : List Nat)
    (st : MuxState) (hP : P.length = 33)
    (hlook : lookupSock P st.socket_map = none)
    (hrej : accept P = false) :
    lookupSock P
      (handle_incoming_msg accept (Message.Bytes (P ++ pl)) our st).1.socket_map
      = none ∧
    (handle_incoming_msg accept (Message.Bytes (P ++ pl)) our st).2
      = [PMEvent.newInbound st.nextId, PMEvent.socketDisconnected st.nextId] ∧
    (handle_incoming_msg accept (Message.Bytes (P ++ pl)) our st).1.stopFlags st.nextId
      = true ∧
    (handle_incoming_msg accept (Message.Bytes (P ++ pl)) our st).1.inboundQueues st.nextId
      = [] ∧
    (∀ j, j ≠ st.nextId →
       (handle_incoming_msg accept (Message.Bytes (P ++ pl)) our st).1.inboundQueues j
         = st.inboundQueues j) := by
  have hnl : ¬ ((P ++ pl).length < PUBKEY_BYTES_LEN) := by
    rw [List.length_append, hP]
    simp [PUBKEY_BYTES_LEN]
  have hnl' : ¬ (P.length + pl.length < PUBKEY_BYTES_LEN) := by
    rw [hP]
    simp [PUBKEY_BYTES_LEN]
  have ht : (P ++ pl).take PUBKEY_BYTES_LEN = P := List.take_left' (hP.trans rfl)
  have hd : (P ++ pl).drop PUBKEY_BYTES_LEN = pl := List.drop_left' (hP.trans rfl)
  refine ⟨?_, ?_, ?_, ?_, ?_⟩
  · have hm : (handle_incoming_msg accept (Message.Bytes (P ++ pl)) our st).1.socket_map
        = mapRemove P (mapInsert P ⟨P, our, st.nextId⟩ st.socket_map) := by
      simp [handle_incoming_msg, hnl, hnl', ht, hd, hlook, hrej,
            create_new_subsocket, SubWsSocketDescriptor.new,
            SubWsSocketDescriptor.disconnect_socket]
    rw [hm]
    exact lookupSock_mapRemove_self _ _
  · simp [handle_incoming_msg, hnl, hnl', ht, hd, hlook, hrej,
          create_new_subsocket, SubWsSocketDescriptor.new]
  · simp [handle_incoming_msg, hnl, hnl', ht, hd, hlook, hrej,
          create_new_subsocket, SubWsSocketDescriptor.new,
          SubWsSocketDescriptor.disconnect_socket]
  · simp [handle_incoming_msg, hnl, hnl', ht, hd, hlook, hrej,
          create_new_subsocket, SubWsSocketDescriptor.new,
          SubWsSocketDescriptor.disconnect_socket]
  · intro j hj
    simp [handle_incoming_msg, hnl, hnl', ht, hd, hlook, hrej,
          create_new_subsocket, SubWsSocketDescriptor.new,
          SubWsSocketDescriptor.disconnect_socket, hj]

theorem c5_witness :
    lookupSock (List.replicate 33 7)
      (handle_incoming_msg (fun _ => false)
        (Message.Bytes (List.replicate 33 7 ++ [5])) [9] emptyState).1.socket_map
      = none ∧
    (handle_incoming_msg (fun _ => false)
        (Message.Bytes (List.replicate 33 7 ++ [5])) [9] emptyState).2
      = [PMEvent.newInbound 0, PMEvent.socketDisconnected 0] ∧
    (handle_incoming_msg (fun _ => false)
        (Message.Bytes (List.replicate 33 7 ++ [5])) [9] emptyState).1.stopFlags 0
      = true := by
  have h := c5_rejected_unwind (fun _ => false) (List.replicate 33 7) [5] [9]
    emptyState (by decide) (by decide) (by decide)
  exact ⟨h.1, h.2.1, h.2.2.1⟩

/-- C6 counterexample: the claim says two disconnect_socket calls emit a
single Disconnect control command; on a fresh open state, two calls enqueue
the command twice, so the outbound queue differs from the single-call
queue. -/
theorem c6_counterexample :
    (SubWsSocketDescriptor.disconnect_socket ⟨[1], [2], 0⟩
        (SubWsSocketDescriptor.disconnect_socket ⟨[1], [2], 0⟩ emptyState)).outbound.queue
      = [disconnectMsg ⟨[1], [2], 0⟩, disconnectMsg ⟨[1], [2], 0⟩] ∧
    ¬ ((SubWsSocketDescriptor.disconnect_socket ⟨[1], [2], 0⟩
        (SubWsSocketDescriptor.disconnect_socket ⟨[1], [2], 0⟩ emptyState)).outbound.queue
      = (SubWsSocketDescriptor.disconnect_socket ⟨[1], [2], 0⟩ emptyState).outbound.queue) := by
  decide

/-- C6 amended: disconnect_socket is idempotent on the stop flag (twice
leaves exactly the flags one call leaves, the socket's own flag set), but
each call enqueues one Disconnect{to, from} control command (two total on an
open channel); the duplicate command yields no additional disconnection
notification, because the receiving dispatcher ignores a Disconnect whose
peer is absent from its table; nothing panics (all operations are total). -/
theorem c6_disconnect_twice (s : SubWsSocketDescriptor) (st : MuxState)
    (hopen : st.outbound.disconnected = false) :
    (s.disconnect_socket st).stopFlags s.id = true ∧
    (s.disconnect_socket (s.disconnect_socket st)).stopFlags
      = (s.disconnect_socket st).stopFlags ∧
    (s.disconnect_socket (s.disconnect_socket st)).outbound.queue
      = st.outbound.queue ++ [disconnectMsg s, disconnectMsg s] ∧
    (∀ (accept : List Nat → Bool) (our : List Nat) (rst : MuxState),
       lookupSock s.our_pubkey_bytes rst.socket_map = none →
       handle_incoming_msg accept
         (Message.Text (some (MutinyProxyCommand.Disconnect
            s.peer_pubkey_bytes s.our_pubkey_bytes))) our rst
         = (rst, [])) := by
  refine ⟨?_, ?_, ?_, ?_⟩
  · simp [SubWsSocketDescriptor.disconnect_socket]
  · funext j
    by_cases h : j = s.id <;>
      simp [SubWsSocketDescriptor.disconnect_socket, h]
  · simp [SubWsSocketDescriptor.disconnect_socket, chanSend, hopen]
  · intro accept our rst hnone
    simp [handle_incoming_msg, hnone]

theorem c6_witness :
    (SubWsSocketDescriptor.disconnect_socket ⟨[1], [2], 0⟩
        (SubWsSocketDescriptor.disconnect_socket ⟨[1], [2], 0⟩ emptyState)).stopFlags 0
      = true ∧
    handle_incoming_msg (fun _ => true)
      (Message.Text (some (MutinyProxyCommand.Disconnect [1] [2]))) [9] emptyState
      = (emptyState, []) := by
  have h := c6_disconnect_twice ⟨[1], [2], 0⟩ emptyState (by decide)
  refine ⟨?_, h.2.2.2 (fun _ => true) [9] emptyState (by decide)⟩
  rw [h.2.1]
  exact h.1

/-- C10: all clones of a virtual socket share one stop flag that is never
cleared once set.  After disconnect_socket or stop_reading on the clone of a
socket s (whose id precedes the counter, as creation guarantees), any
sequence of further API operations leaves the shared flag set, so send_data
on s returns 0 and read on s returns Err(ConnectionFailed), permanently. -/
theorem c10_shared_stop_flag (s : SubWsSocketDescriptor) (st : MuxState)
    (ops : List Op) (data : List Nat) (hlt : s.id < st.nextId) :
    ((ops.foldl applyOp
        (SubWsSocketDescriptor.disconnect_socket s.clone st)).stopFlags s.id = true ∧
     (s.send_data data (ops.foldl applyOp
        (SubWsSocketDescriptor.disconnect_socket s.clone st))).1 = 0 ∧
     (SubWsSocketDescriptor.read 1 s (ops.foldl applyOp
        (SubWsSocketDescriptor.disconnect_socket s.clone st))).1
       = some (Except.error MutinyError.ConnectionFailed)) ∧
    ((ops.foldl applyOp
        (SubWsSocketDescriptor.stop_reading s.clone st)).stopFlags s.id = true ∧
     (s.send_data data (ops.foldl applyOp
        (SubWsSocketDescriptor.stop_reading s.clone st))).1 = 0 ∧
     (SubWsSocketDescriptor.read 1 s (ops.foldl applyOp
        (SubWsSocketDescriptor.stop_reading s.clone st))).1
       = some (Except.error MutinyError.ConnectionFailed)) := by
  have h1 : (SubWsSocketDescriptor.disconnect_socket s.clone st).stopFlags s.id
      = true := by
    simp [SubWsSocketDescriptor.clone, SubWsSocketDescriptor.disconnect_socket]
  have h2 : (SubWsSocketDescriptor.stop_reading s.clone st).stopFlags s.id = true := by
    simp [SubWsSocketDescriptor.clone, SubWsSocketDescriptor.stop_reading]
  have hn1 : (SubWsSocketDescriptor.disconnect_socket s.clone st).nextId = st.nextId := rfl
  have hn2 : (SubWsSocketDescriptor.stop_reading s.clone st).nextId = st.nextId := rfl
  have k1 := (applyOps_preserve ops _ s.id (by rw [hn1]; exact hlt) h1).2
  have k2 := (applyOps_preserve ops _ s.id (by rw [hn2]; exact hlt) h2).2
  refine ⟨⟨k1, ?_, ?_⟩, ⟨k2, ?_, ?_⟩⟩
  · simp [SubWsSocketDescriptor.send_data, k1]
  · simp [SubWsSocketDescriptor.read, k1]
  · simp [SubWsSocketDescriptor.send_data, k2]
  · simp [SubWsSocketDescriptor.read, k2]

theorem c10_witness :
    (([Op.sendData ⟨[3], [4], 5⟩ [7]]).foldl applyOp
        (SubWsSocketDescriptor.disconnect_socket
          (SubWsSocketDescriptor.clone ⟨[1], [2], 0⟩)
          { emptyState with nextId := 1 })).stopFlags 0 = true ∧
    (SubWsSocketDescriptor.send_data ⟨[1], [2], 0⟩ [8]
        (([Op.sendData ⟨[3], [4], 5⟩ [7]]).foldl applyOp
          (SubWsSocketDescriptor.disconnect_socket
            (SubWsSocketDescriptor.clone ⟨[1], [2], 0⟩)
            { emptyState with nextId := 1 }))).1 = 0 ∧
    (SubWsSocketDescriptor.read 1 ⟨[1], [2], 0⟩
        (([Op.sendData ⟨[3], [4], 5⟩ [7]]).foldl applyOp
          (SubWsSocketDescriptor.stop_reading
            (SubWsSocketDescriptor.clone ⟨[1], [2], 0⟩)
            { emptyState with nextId := 1 }))).1
      = some (Except.error MutinyError.ConnectionFailed) := by
  have h := c10_shared_stop_flag ⟨[1], [2], 0⟩ { emptyState with nextId := 1 }
    [Op.sendData ⟨[3], [4], 5⟩ [7]] [8] (by decide)
  exact ⟨h.1.1, h.1.2.1, h.2.2.2⟩
